import Mathlib

/-!
Shallow embedding of the `breaking` library (token bucket + circuit breaker).

Timestamps, elapsed durations and restore rates are modelled as rationals
(Python floats, exact arithmetic).  Mutation of the Python objects is
modelled by explicit state passing: every operation returns its result
together with the state of the object after the call, the error channel of
a raised exception is an `Except`.  Each clock read
(`clock.seconds_since_epoch()`) is modelled by an explicit `now` argument;
both clock implementations of `breaking.clock` produce non-decreasing
values, which appears as a `last_restore ≤ now` hypothesis where a theorem
needs it.
-/

namespace Breaking

/-- Python `int(x)` on a float: truncation toward zero. -/
def pyTrunc (q : ℚ) : ℤ := if 0 ≤ q then ⌊q⌋ else ⌈q⌉

/-- A Python float as far as `bucket.py` inspects it: a finite value, NaN,
`inf` or `-inf`. -/
inductive PyFloat where
  | finite (q : ℚ)
  | nan
  | inf
  | neginf
  deriving DecidableEq

/-- IEEE-754 `<` on the modelled floats (any comparison with NaN is false). -/
def PyFloat.lt : PyFloat → PyFloat → Bool
  | .nan, _ => false
  | _, .nan => false
  | .neginf, .neginf => false
  | .neginf, _ => true
  | _, .neginf => false
  | .inf, _ => false
  | _, .inf => true
  | .finite a, .finite b => decide (a < b)

/-- `math.isnan`. -/
def PyFloat.isnan : PyFloat → Bool
  | .nan => true
  | _ => false

/-- `math.isinf`. -/
def PyFloat.isinf : PyFloat → Bool
  | .inf => true
  | .neginf => true
  | _ => false

/-- The exception classes the embedded code distinguishes.  All of them are
subclasses of `Exception`. -/
inductive ExcType where
  | exception
  | valueError
  | keyError
  | assertionError
  | zeroDivisionError
  | requestBlockedError
  | connectionError
  deriving DecidableEq

/-- Python `issubclass` restricted to the classes above: every class is a
subclass of itself and of `Exception`. -/
def issubclass (a b : ExcType) : Bool := a = b || b = ExcType.exception

/-- A raised Python exception: its class and its message. -/
structure PyExc where
  ty : ExcType
  msg : String
  deriving DecidableEq

/-- The two `Clock` implementations of `breaking.clock`.  The value a clock
read produces is passed to the operations explicitly; this tag records which
implementation a bucket holds (`TokenBucket.clock` field). -/
inductive ClockImpl where
  | monotonic
  | mockClock
  deriving DecidableEq

/-- State of a `breaking.bucket.TokenBucket` after successful construction
(`restore_rate_hz` has passed validation, hence is finite). -/
structure TokenBucket where
  capacity_max : ℤ
  capacity_current : ℤ
  restore_rate_hz : ℚ
  last_restore : ℚ
  clock : ClockImpl
  deriving DecidableEq

/-- `TokenBucket.__post_init__`: the dataclass constructor.  `now` is the
value of the `self.clock.seconds_since_epoch()` call that initialises
`last_restore`; validation happens in source order, after the field writes. -/
def TokenBucket.new (capacity_max : ℤ) (restore_rate_hz : PyFloat)
    (clock : ClockImpl) (now : ℚ) : Except PyExc TokenBucket :=
  if capacity_max < 1 then
    .error ⟨.valueError, "capacity_max must be >= 1"⟩
  else if PyFloat.lt restore_rate_hz (.finite 1) then
    .error ⟨.valueError, "restore_rate_hz must be >= 1"⟩
  else if restore_rate_hz.isnan then
    .error ⟨.valueError, "restore_rate_hz cannot be NaN"⟩
  else if restore_rate_hz.isinf then
    .error ⟨.valueError, "restore_rate_hz cannot be Inf"⟩
  else
    match restore_rate_hz with
    | .finite q => .ok ⟨capacity_max, capacity_max, q, now, clock⟩
    | _ => .error ⟨.valueError, "restore_rate_hz cannot be Inf"⟩

/-- `TokenBucket._update`: the lazy restore recomputation.  `now` is the
clock read at the top of the method. -/
def TokenBucket.update (b : TokenBucket) (now : ℚ) : TokenBucket :=
  let seconds_since_last_drain := now - b.last_restore
  let capacity_to_restore :=
    min (pyTrunc (seconds_since_last_drain * b.restore_rate_hz)) b.capacity_max
  { b with
    capacity_current := min (b.capacity_current + capacity_to_restore) b.capacity_max
    last_restore := now }

/-- `TokenBucket.has_tokens_left(n)`.  Returns the boolean result (or the
`AssertionError` of the `n >= 1` assert) together with the bucket state
after the call. -/
def TokenBucket.has_tokens_left (b : TokenBucket) (n : ℤ) (now : ℚ) :
    Except PyExc Bool × TokenBucket :=
  if ¬ n ≥ 1 then
    (.error ⟨.assertionError, "`n` must be >= 1"⟩, b)
  else
    let b' := b.update now
    (.ok (decide (b'.capacity_current - n ≥ 0)), b')

/-- `TokenBucket.take(n)`.  Returns unit or the raised exception, together
with the bucket state after the call (on the `ValueError` path the state
already reflects the `_update` that ran before the capacity check). -/
def TokenBucket.take (b : TokenBucket) (n : ℤ) (now : ℚ) :
    Except PyExc Unit × TokenBucket :=
  if ¬ n ≥ 1 then
    (.error ⟨.assertionError, "`n` must be >= 1"⟩, b)
  else
    let b' := b.update now
    if b'.capacity_current - n < 0 then
      (.error ⟨.valueError, "Tried filling more than bucket capacity"⟩, b')
    else
      (.ok (), { b' with capacity_current := b'.capacity_current - n })

instance {ε α : Type} [DecidableEq ε] [DecidableEq α] : DecidableEq (Except ε α) :=
  fun a b =>
    match a, b with
    | .ok x, .ok y => decidable_of_iff (x = y) (by simp)
    | .error e, .error f => decidable_of_iff (e = f) (by simp)
    | .ok _, .error _ => isFalse (by simp)
    | .error _, .ok _ => isFalse (by simp)

/-- The `http_client` collaborator is opaque to the breaker's control logic
(`HttpClient = Any` in the source); the breaker only stores it. -/
abbrev HttpClient := Unit

/-- State of a `breaking.breaker.CircuitBreaker`. -/
structure CircuitBreaker where
  http_client : HttpClient
  exception_kinds : List ExcType
  bucket : TokenBucket
  deriving DecidableEq

/-- `CircuitBreaker.__init__`.  Its parameters are exactly those of the
source: `http_client`, `error_threshold`, `time_window_secs`,
`exceptions_kinds` (defaulting to `(Exception,)`); there is no clock
parameter, and the internally constructed `TokenBucket` is given no `clock`
argument, so it gets the dataclass default `MonotonicClock`.  `now` is the
clock read that initialises the bucket's `last_restore`. -/
def CircuitBreaker.new (http_client : HttpClient) (error_threshold : ℤ)
    (time_window_secs : ℤ) (exceptions_kinds : List ExcType) (now : ℚ) :
    Except PyExc CircuitBreaker :=
  if time_window_secs = 0 then
    .error ⟨.zeroDivisionError, "division by zero"⟩
  else
    let restore_rate_hz : ℚ := (error_threshold : ℚ) / (time_window_secs : ℚ)
    match TokenBucket.new error_threshold (.finite restore_rate_hz) .monotonic now with
    | .ok b => .ok ⟨http_client, exceptions_kinds, b⟩
    | .error e => .error e

/-- `CircuitBreaker.is_allowing_requests`: delegates to
`bucket.has_tokens_left()` (default `n = 1`). -/
def CircuitBreaker.is_allowing_requests (cb : CircuitBreaker) (now : ℚ) :
    Except PyExc Bool × CircuitBreaker :=
  let r := cb.bucket.has_tokens_left 1 now
  (r.1, { cb with bucket := r.2 })

/-- `CircuitBreaker.is_blocking_requests`: negation of
`is_allowing_requests`. -/
def CircuitBreaker.is_blocking_requests (cb : CircuitBreaker) (now : ℚ) :
    Except PyExc Bool × CircuitBreaker :=
  let r := cb.is_allowing_requests now
  (r.1.map (fun tf => !tf), r.2)

/-- `CircuitBreaker.record_failure`: `bucket.take()` with a `ValueError`
swallowed (`except ValueError: pass`); any other exception class would
propagate. -/
def CircuitBreaker.record_failure (cb : CircuitBreaker) (now : ℚ) :
    Except PyExc Unit × CircuitBreaker :=
  match cb.bucket.take 1 now with
  | (.ok _, b') => (.ok (), { cb with bucket := b' })
  | (.error e, b') =>
      if e.ty = .valueError then (.ok (), { cb with bucket := b' })
      else (.error e, { cb with bucket := b' })

/-- `CircuitBreaker.__enter__`: raises `RequestBlockedError` when
`is_blocking_requests()` is true, otherwise returns normally. -/
def CircuitBreaker.enter (cb : CircuitBreaker) (now : ℚ) :
    Except PyExc Unit × CircuitBreaker :=
  match cb.is_blocking_requests now with
  | (.ok true, cb') =>
      (.error ⟨.requestBlockedError, "Not performing request. Too many failures"⟩, cb')
  | (.ok false, cb') => (.ok (), cb')
  | (.error e, cb') => (.error e, cb')

/-- `CircuitBreaker.__exit__`: when an exception was raised in the body,
call `record_failure()` once for every configured kind the exception's class
is a subclass of; always return `False`.  (`record_failure` provably never
raises for `n = 1`, see `record_failure_never_raises` below, so only its
state component is threaded.) -/
def CircuitBreaker.exit (cb : CircuitBreaker) (exc_type : Option ExcType) (now : ℚ) :
    Bool × CircuitBreaker :=
  match exc_type with
  | none => (false, cb)
  | some ty =>
      (false,
       cb.exception_kinds.foldl
         (fun acc kind =>
           if issubclass ty kind then (acc.record_failure now).2 else acc)
         cb)

/-- Python's `with cb: body` statement (the body runs at `t_enter`; the
release step, hence every clock read inside `__exit__`, happens at
`t_exit`).  Returns the overall outcome, the final breaker state, and
whether the body was entered at all.  Per Python semantics: if `__enter__`
raises, the body and `__exit__` are skipped; if the body raises and
`__exit__` returns `False`, the body's exception propagates unchanged
(were `__exit__` to return `True`, the exception would be suppressed and
the `with` statement would produce no value, hence the `Option`). -/
def CircuitBreaker.withDo {α : Type} (cb : CircuitBreaker) (t_enter t_exit : ℚ)
    (body : Except PyExc α) : Except PyExc (Option α) × CircuitBreaker × Bool :=
  match cb.enter t_enter with
  | (.error e, cb') => (.error e, cb', false)
  | (.ok _, cb') =>
      match body with
      | .ok a =>
          let r := cb'.exit none t_exit
          (.ok (some a), r.2, true)
      | .error e =>
          let r := cb'.exit (some e.ty) t_exit
          (if r.1 then .ok none else .error e, r.2, true)

/-- The bucket invariant of the spec: the stored token count stays inside
`[0, capacity_max]`. -/
def BucketInv (b : TokenBucket) : Prop :=
  0 ≤ b.capacity_current ∧ b.capacity_current ≤ b.capacity_max

/-- Parameter validity as established by `__post_init__`. -/
def BucketValid (b : TokenBucket) : Prop :=
  1 ≤ b.capacity_max ∧ 1 ≤ b.restore_rate_hz

/-- A breaker configured with two overlapping exception kinds
(`exceptions_kinds=(Exception, ValueError)`), threshold 5, window 1s,
as produced by `CircuitBreaker.new () 5 1 [.exception, .valueError] 0`. -/
def c1_breaker : CircuitBreaker := ⟨(), [.exception, .valueError], ⟨5, 5, 5, 0, .monotonic⟩⟩

/-- The breaker of Scenario C (`error_threshold=5`, `time_window_secs=1`,
default classification), fresh at mock time 0. -/
def scenarioC_cb0 : CircuitBreaker := ⟨(), [.exception], ⟨5, 5, 5, 0, .monotonic⟩⟩

/-- One guarded call at mock time 0 whose body raises `ValueError`. -/
def failOnce (cb : CircuitBreaker) : CircuitBreaker :=
  (cb.withDo 0 0 (Except.error ⟨.valueError, "boom"⟩ : Except PyExc Unit)).2.1

/-- Scenario C's breaker after five classified failures. -/
def scenarioC_cb5 : CircuitBreaker :=
  failOnce (failOnce (failOnce (failOnce (failOnce scenarioC_cb0))))

/-- Scenario C's breaker after the sixth, refused, acquire. -/
def scenarioC_cb6 : CircuitBreaker :=
  (scenarioC_cb5.withDo 0 0 (Except.ok () : Except PyExc Unit)).2.1

/-- A threshold-5/window-1 breaker whose bucket is empty at time 0 (five
classified failures already recorded). -/
def c10_breaker : CircuitBreaker := ⟨(), [.exception], ⟨5, 0, 5, 0, .monotonic⟩⟩

/-! ### Helper lemmas -/

theorem pyTrunc_of_nonneg {q : ℚ} (h : 0 ≤ q) : pyTrunc q = ⌊q⌋ := if_pos h

theorem pyTrunc_nonneg {q : ℚ} (h : 0 ≤ q) : 0 ≤ pyTrunc q := by
  rw [pyTrunc_of_nonneg h]
  exact Int.floor_nonneg.2 h

theorem update_def (b : TokenBucket) (now : ℚ) :
    b.update now =
      ⟨b.capacity_max,
       min (b.capacity_current + min (pyTrunc ((now - b.last_restore) * b.restore_rate_hz)) b.capacity_max)
         b.capacity_max,
       b.restore_rate_hz, now, b.clock⟩ := rfl

theorem update_inv {b : TokenBucket} {now : ℚ} (hv : BucketValid b)
    (hi : 0 ≤ b.capacity_current) (hc : b.last_restore ≤ now) :
    BucketInv (b.update now) := by
  obtain ⟨hcap, hrate⟩ := hv
  have helapsed : (0 : ℚ) ≤ now - b.last_restore := by linarith
  have hprod : (0 : ℚ) ≤ (now - b.last_restore) * b.restore_rate_hz :=
    mul_nonneg helapsed (by linarith)
  have htr := pyTrunc_nonneg hprod
  constructor
  · rw [update_def]
    dsimp only
    have h1 : 0 ≤ min (pyTrunc ((now - b.last_restore) * b.restore_rate_hz)) b.capacity_max :=
      le_min htr (by omega)
    exact le_min (by omega) (by omega)
  · rw [update_def]
    exact min_le_right _ _

theorem has_tokens_left_one (b : TokenBucket) (now : ℚ) :
    b.has_tokens_left 1 now =
      (.ok (decide ((b.update now).capacity_current - 1 ≥ 0)), b.update now) := by
  simp [TokenBucket.has_tokens_left]

theorem take_state_of_ge {b : TokenBucket} {n : ℤ} (now : ℚ) (hn : 1 ≤ n)
    (h : n ≤ (b.update now).capacity_current) :
    b.take n now =
      (.ok (), { b.update now with capacity_current := (b.update now).capacity_current - n }) := by
  unfold TokenBucket.take
  rw [if_neg (by omega), if_neg (by omega)]

theorem take_state_of_lt {b : TokenBucket} {n : ℤ} (now : ℚ) (hn : 1 ≤ n)
    (h : (b.update now).capacity_current < n) :
    b.take n now =
      (.error ⟨.valueError, "Tried filling more than bucket capacity"⟩, b.update now) := by
  unfold TokenBucket.take
  rw [if_neg (by omega), if_pos (by omega)]

theorem take_error_eq {b : TokenBucket} {n : ℤ} {now : ℚ} {e : PyExc} (hn : 1 ≤ n)
    (h : (b.take n now).1 = .error e) :
    e = ⟨.valueError, "Tried filling more than bucket capacity"⟩ := by
  unfold TokenBucket.take at h
  rw [if_neg (by omega)] at h
  by_cases hcap : (b.update now).capacity_current - n < 0
  · rw [if_pos hcap] at h
    exact (Except.error.injEq _ _ ▸ h.symm).symm ▸ rfl
  · rw [if_neg hcap] at h
    exact absurd h (by simp)

theorem new_ok_iff {cm : ℤ} {q : ℚ} {cl : ClockImpl} {t : ℚ} :
    TokenBucket.new cm (.finite q) cl t = .ok ⟨cm, cm, q, t, cl⟩ ↔ 1 ≤ cm ∧ 1 ≤ q := by
  constructor
  · intro h
    unfold TokenBucket.new at h
    by_cases h1 : cm < 1
    · rw [if_pos h1] at h
      exact absurd h (by simp)
    · rw [if_neg h1] at h
      by_cases h2 : PyFloat.lt (.finite q) (.finite 1)
      · rw [if_pos h2] at h
        exact absurd h (by simp)
      · simp only [PyFloat.lt, decide_eq_true_eq] at h2
        exact ⟨by omega, by linarith [not_lt.1 h2]⟩
  · rintro ⟨h1, h2⟩
    unfold TokenBucket.new
    rw [if_neg (by omega)]
    rw [if_neg (by simp [PyFloat.lt]; linarith)]
    rfl

theorem new_ok_fields {cm : ℤ} {rr : PyFloat} {cl : ClockImpl} {t : ℚ} {b : TokenBucket}
    (h : TokenBucket.new cm rr cl t = .ok b) :
    b.capacity_max = cm ∧ b.capacity_current = cm ∧ b.last_restore = t ∧ b.clock = cl ∧
      1 ≤ cm ∧ rr = .finite b.restore_rate_hz ∧ 1 ≤ b.restore_rate_hz := by
  unfold TokenBucket.new at h
  by_cases h1 : cm < 1
  · rw [if_pos h1] at h; exact absurd h (by simp)
  rw [if_neg h1] at h
  by_cases h2 : PyFloat.lt rr (.finite 1)
  · rw [if_pos h2] at h; exact absurd h (by simp)
  rw [if_neg h2] at h
  by_cases h3 : rr.isnan = true
  · rw [if_pos h3] at h; exact absurd h (by simp)
  rw [if_neg h3] at h
  by_cases h4 : rr.isinf = true
  · rw [if_pos h4] at h; exact absurd h (by simp)
  rw [if_neg h4] at h
  cases rr with
  | finite q =>
      simp only [Except.ok.injEq] at h
      subst h
      simp only [PyFloat.lt, decide_eq_true_eq, not_lt] at h2
      exact ⟨rfl, rfl, rfl, rfl, by omega, rfl, h2⟩
  | nan => simp [PyFloat.isnan] at h3
  | inf => simp [PyFloat.isinf] at h4
  | neginf => simp [PyFloat.isinf] at h4

theorem has_tokens_left_state {b : TokenBucket} {n : ℤ} (now : ℚ) (hn : 1 ≤ n) :
    (b.has_tokens_left n now).2 = b.update now := by
  unfold TokenBucket.has_tokens_left
  rw [if_neg (by omega)]

theorem take_state_last {b : TokenBucket} {n : ℤ} (now : ℚ) (hn : 1 ≤ n) :
    (b.take n now).2.last_restore = now := by
  by_cases h : (b.update now).capacity_current < n
  · rw [take_state_of_lt now hn h]
    rfl
  · rw [take_state_of_ge now hn (by omega)]
    rfl

theorem update_valid {b : TokenBucket} {now : ℚ} :
    BucketValid (b.update now) ↔ BucketValid b := by
  simp [update_def, BucketValid]

/-! ### Claim theorems -/

/-- C3: for every bucket and `n ≥ 1`, if after the restore recomputation
(`_update`) the capacity is at least `n`, `take n` succeeds and decreases
`capacity_current` by exactly `n`; if the recomputed capacity is below `n`,
`take n` raises `ValueError` ("CapacityExceeded") and the final state is
exactly the recomputed state — nothing is mutated on the failure path after
the recomputation. -/
theorem take_conservation_and_rejection (b : TokenBucket) (n : ℤ) (now : ℚ)
    (hn : 1 ≤ n) :
    (n ≤ (b.update now).capacity_current →
      b.take n now =
        (.ok (), { b.update now with
                   capacity_current := (b.update now).capacity_current - n })) ∧
    ((b.update now).capacity_current < n →
      b.take n now =
        (.error ⟨.valueError, "Tried filling more than bucket capacity"⟩, b.update now)) :=
  ⟨take_state_of_ge now hn, take_state_of_lt now hn⟩

theorem take_conservation_and_rejection_witness :
    TokenBucket.take ⟨5, 5, 5, 0, .mockClock⟩ 1 0 = (.ok (), ⟨5, 4, 5, 0, .mockClock⟩) ∧
    TokenBucket.take ⟨5, 0, 5, 0, .mockClock⟩ 1 0 =
      (.error ⟨.valueError, "Tried filling more than bucket capacity"⟩,
       ⟨5, 0, 5, 0, .mockClock⟩) := by
  have hu1 : TokenBucket.update ⟨5, 5, 5, 0, .mockClock⟩ 0 = ⟨5, 5, 5, 0, .mockClock⟩ := by
    norm_num [TokenBucket.update, pyTrunc]
  have hu0 : TokenBucket.update ⟨5, 0, 5, 0, .mockClock⟩ 0 = ⟨5, 0, 5, 0, .mockClock⟩ := by
    norm_num [TokenBucket.update, pyTrunc]
  constructor
  · have h := (take_conservation_and_rejection ⟨5, 5, 5, 0, .mockClock⟩ 1 0 (by norm_num)).1
    rw [hu1] at h
    simpa using h (by norm_num)
  · have h := (take_conservation_and_rejection ⟨5, 0, 5, 0, .mockClock⟩ 1 0 (by norm_num)).2
    rw [hu0] at h
    simpa using h (by norm_num)

/-- C4: at the start of every `has_tokens_left`/`take` call the restore
recomputation credits `restorable = ⌊elapsed * restore_rate_hz⌋` clamped to
`[0, capacity_max]` (truncation toward zero coincides with the floor since
the clock is non-decreasing), sets
`capacity_current = min (capacity_current + restorable) capacity_max`, and
advances `last_restore` to `now` on every call, even when `restorable = 0`. -/
theorem restore_computation (b : TokenBucket) (n : ℤ) (now : ℚ)
    (hclock : b.last_restore ≤ now) (hrate : 1 ≤ b.restore_rate_hz)
    (hcap : 1 ≤ b.capacity_max) (hn : 1 ≤ n) :
    0 ≤ min (pyTrunc ((now - b.last_restore) * b.restore_rate_hz)) b.capacity_max ∧
    min (pyTrunc ((now - b.last_restore) * b.restore_rate_hz)) b.capacity_max ≤ b.capacity_max ∧
    pyTrunc ((now - b.last_restore) * b.restore_rate_hz) =
      ⌊(now - b.last_restore) * b.restore_rate_hz⌋ ∧
    (b.update now).capacity_current =
      min (b.capacity_current +
            min (pyTrunc ((now - b.last_restore) * b.restore_rate_hz)) b.capacity_max)
        b.capacity_max ∧
    (b.update now).last_restore = now ∧
    (b.has_tokens_left n now).2 = b.update now ∧
    (b.take n now).2.last_restore = now := by
  have hprod : (0 : ℚ) ≤ (now - b.last_restore) * b.restore_rate_hz :=
    mul_nonneg (by linarith) (by linarith)
  refine ⟨le_min (pyTrunc_nonneg hprod) (by omega), min_le_right _ _,
    pyTrunc_of_nonneg hprod, rfl, rfl, has_tokens_left_state now hn, take_state_last now hn⟩

theorem restore_computation_witness :
    0 ≤ min (pyTrunc ((1 - (0 : ℚ)) * 5) ) (5 : ℤ) ∧
    min (pyTrunc ((1 - (0 : ℚ)) * 5)) (5 : ℤ) ≤ 5 ∧
    pyTrunc ((1 - (0 : ℚ)) * 5) = ⌊(1 - (0 : ℚ)) * 5⌋ ∧
    (TokenBucket.update ⟨5, 0, 5, 0, .mockClock⟩ 1).capacity_current =
      min ((0 : ℤ) + min (pyTrunc ((1 - (0 : ℚ)) * 5)) 5) 5 ∧
    (TokenBucket.update ⟨5, 0, 5, 0, .mockClock⟩ 1).last_restore = 1 ∧
    (TokenBucket.has_tokens_left ⟨5, 0, 5, 0, .mockClock⟩ 1 1).2 =
      TokenBucket.update ⟨5, 0, 5, 0, .mockClock⟩ 1 ∧
    (TokenBucket.take ⟨5, 0, 5, 0, .mockClock⟩ 1 1).2.last_restore = 1 :=
  restore_computation ⟨5, 0, 5, 0, .mockClock⟩ 1 1 (by norm_num) (by norm_num)
    (by norm_num) (by norm_num)

/-- C5: `0 ≤ capacity_current ≤ capacity_max` holds after construction and
is preserved (together with parameter validity) by every `has_tokens_left`
and `take` call, including failing ones, whenever the clock read is
non-decreasing. -/
theorem bucket_invariant_reachable :
    (∀ (cm : ℤ) (rr : PyFloat) (cl : ClockImpl) (t : ℚ) (b : TokenBucket),
        TokenBucket.new cm rr cl t = .ok b → BucketInv b ∧ BucketValid b) ∧
    (∀ (b : TokenBucket) (n : ℤ) (now : ℚ), BucketValid b → BucketInv b →
        b.last_restore ≤ now →
        BucketInv (b.has_tokens_left n now).2 ∧ BucketValid (b.has_tokens_left n now).2) ∧
    (∀ (b : TokenBucket) (n : ℤ) (now : ℚ), BucketValid b → BucketInv b →
        b.last_restore ≤ now →
        BucketInv (b.take n now).2 ∧ BucketValid (b.take n now).2) := by
  refine ⟨?_, ?_, ?_⟩
  · intro cm rr cl t b h
    obtain ⟨h1, h2, h3, h4, h5, h6, h7⟩ := new_ok_fields h
    exact ⟨⟨by omega, by omega⟩, by omega, h7⟩
  · intro b n now hv hi hc
    by_cases hn : 1 ≤ n
    · rw [has_tokens_left_state now hn]
      exact ⟨update_inv hv hi.1 hc, update_valid.2 hv⟩
    · unfold TokenBucket.has_tokens_left
      rw [if_pos (by omega)]
      exact ⟨hi, hv⟩
  · intro b n now hv hi hc
    by_cases hn : 1 ≤ n
    · have hui := update_inv hv hi.1 hc
      have huv : BucketValid (b.update now) := update_valid.2 hv
      by_cases hcap : (b.update now).capacity_current < n
      · rw [take_state_of_lt now hn hcap]
        exact ⟨hui, huv⟩
      · rw [take_state_of_ge now hn (by omega)]
        have h2 := hui.2
        refine ⟨⟨?_, ?_⟩, ?_, ?_⟩
        · show (0 : ℤ) ≤ (b.update now).capacity_current - n
          omega
        · show (b.update now).capacity_current - n ≤ (b.update now).capacity_max
          omega
        · show (1 : ℤ) ≤ (b.update now).capacity_max
          exact huv.1
        · show (1 : ℚ) ≤ (b.update now).restore_rate_hz
          exact huv.2
    · unfold TokenBucket.take
      rw [if_pos (by omega)]
      exact ⟨hi, hv⟩

theorem bucket_invariant_reachable_witness :
    BucketInv (⟨5, 5, 5, 0, .mockClock⟩ : TokenBucket) ∧
    BucketInv (TokenBucket.take ⟨5, 5, 5, 0, .mockClock⟩ 1 0).2 := by
  have h1 := (bucket_invariant_reachable.1 5 (.finite 5) .mockClock 0
    ⟨5, 5, 5, 0, .mockClock⟩ (by rw [new_ok_iff]; norm_num))
  have h2 := (bucket_invariant_reachable.2.2 ⟨5, 5, 5, 0, .mockClock⟩ 1 0
    h1.2 h1.1 (by norm_num))
  exact ⟨h1.1, h2.1⟩

/-- C6: `TokenBucket` construction raises `ValueError` ("InvalidArgument")
for `capacity_max < 1` (whatever the rate), and — when `capacity_max` is in
range — for a finite rate `< 1` (negative included), for NaN and for both
infinities; it succeeds for `capacity_max ≥ 1` and finite rate `≥ 1`,
starting with `capacity_current = capacity_max`. -/
theorem construction_validation :
    (∀ (cm : ℤ) (rr : PyFloat) (cl : ClockImpl) (t : ℚ), cm < 1 →
        TokenBucket.new cm rr cl t = .error ⟨.valueError, "capacity_max must be >= 1"⟩) ∧
    (∀ (cm : ℤ) (q : ℚ) (cl : ClockImpl) (t : ℚ), 1 ≤ cm → q < 1 →
        TokenBucket.new cm (.finite q) cl t =
          .error ⟨.valueError, "restore_rate_hz must be >= 1"⟩) ∧
    (∀ (cm : ℤ) (cl : ClockImpl) (t : ℚ), 1 ≤ cm →
        TokenBucket.new cm .nan cl t = .error ⟨.valueError, "restore_rate_hz cannot be NaN"⟩) ∧
    (∀ (cm : ℤ) (cl : ClockImpl) (t : ℚ), 1 ≤ cm →
        TokenBucket.new cm .inf cl t = .error ⟨.valueError, "restore_rate_hz cannot be Inf"⟩) ∧
    (∀ (cm : ℤ) (cl : ClockImpl) (t : ℚ), 1 ≤ cm →
        TokenBucket.new cm .neginf cl t =
          .error ⟨.valueError, "restore_rate_hz must be >= 1"⟩) ∧
    (∀ (cm : ℤ) (q : ℚ) (cl : ClockImpl) (t : ℚ), 1 ≤ cm → 1 ≤ q →
        TokenBucket.new cm (.finite q) cl t = .ok ⟨cm, cm, q, t, cl⟩) := by
  refine ⟨?_, ?_, ?_, ?_, ?_, ?_⟩
  · intro cm rr cl t h
    unfold TokenBucket.new
    rw [if_pos h]
  · intro cm q cl t h1 h2
    unfold TokenBucket.new
    rw [if_neg (by omega), if_pos (by simp [PyFloat.lt]; linarith)]
  · intro cm cl t h1
    unfold TokenBucket.new
    rw [if_neg (by omega), if_neg (by simp [PyFloat.lt]), if_pos (by simp [PyFloat.isnan])]
  · intro cm cl t h1
    unfold TokenBucket.new
    rw [if_neg (by omega), if_neg (by simp [PyFloat.lt]), if_neg (by simp [PyFloat.isnan]),
      if_pos (by simp [PyFloat.isinf])]
  · intro cm cl t h1
    unfold TokenBucket.new
    rw [if_neg (by omega), if_pos (by simp [PyFloat.lt])]
  · intro cm q cl t h1 h2
    exact new_ok_iff.2 ⟨h1, h2⟩

theorem construction_validation_witness :
    TokenBucket.new 0 (.finite 10) .mockClock 0 =
      .error ⟨.valueError, "capacity_max must be >= 1"⟩ ∧
    TokenBucket.new 10 (.finite (-5)) .mockClock 0 =
      .error ⟨.valueError, "restore_rate_hz must be >= 1"⟩ ∧
    TokenBucket.new 10 .nan .mockClock 0 =
      .error ⟨.valueError, "restore_rate_hz cannot be NaN"⟩ ∧
    TokenBucket.new 10 .inf .mockClock 0 =
      .error ⟨.valueError, "restore_rate_hz cannot be Inf"⟩ ∧
    TokenBucket.new 10 (.finite 1) .mockClock 0 = .ok ⟨10, 10, 1, 0, .mockClock⟩ :=
  ⟨construction_validation.1 0 (.finite 10) .mockClock 0 (by norm_num),
   construction_validation.2.1 10 (-5) .mockClock 0 (by norm_num) (by norm_num),
   construction_validation.2.2.1 10 .mockClock 0 (by norm_num),
   construction_validation.2.2.2.1 10 .mockClock 0 (by norm_num),
   construction_validation.2.2.2.2.2 10 1 .mockClock 0 (by norm_num) (by norm_num)⟩

/-! ### Breaker helper lemmas -/

theorem enter_blocked {cb : CircuitBreaker} {now : ℚ}
    (h : (cb.bucket.update now).capacity_current < 1) :
    cb.enter now =
      (.error ⟨.requestBlockedError, "Not performing request. Too many failures"⟩,
       { cb with bucket := cb.bucket.update now }) := by
  unfold CircuitBreaker.enter CircuitBreaker.is_blocking_requests
    CircuitBreaker.is_allowing_requests
  rw [has_tokens_left_one]
  simp [Except.map, not_le.mpr h]

theorem enter_allowed {cb : CircuitBreaker} {now : ℚ}
    (h : 1 ≤ (cb.bucket.update now).capacity_current) :
    cb.enter now = (.ok (), { cb with bucket := cb.bucket.update now }) := by
  unfold CircuitBreaker.enter CircuitBreaker.is_blocking_requests
    CircuitBreaker.is_allowing_requests
  rw [has_tokens_left_one]
  simp [Except.map, h]

theorem enter_state (cb : CircuitBreaker) (now : ℚ) :
    (cb.enter now).2 = { cb with bucket := cb.bucket.update now } := by
  by_cases h : (cb.bucket.update now).capacity_current < 1
  · rw [enter_blocked h]
  · rw [enter_allowed (by omega)]

theorem record_failure_state_ok {cb : CircuitBreaker} {now : ℚ}
    (h : 1 ≤ (cb.bucket.update now).capacity_current) :
    cb.record_failure now =
      (.ok (), { cb with bucket :=
        { cb.bucket.update now with
          capacity_current := (cb.bucket.update now).capacity_current - 1 } }) := by
  unfold CircuitBreaker.record_failure
  rw [take_state_of_ge now (by norm_num) h]

theorem record_failure_state_empty {cb : CircuitBreaker} {now : ℚ}
    (h : (cb.bucket.update now).capacity_current < 1) :
    cb.record_failure now = (.ok (), { cb with bucket := cb.bucket.update now }) := by
  unfold CircuitBreaker.record_failure
  rw [take_state_of_lt now (by norm_num) h]
  rfl

theorem record_failure_never_raises (cb : CircuitBreaker) (now : ℚ) :
    (cb.record_failure now).1 = .ok () := by
  by_cases h : (cb.bucket.update now).capacity_current < 1
  · rw [record_failure_state_empty h]
  · rw [record_failure_state_ok (by omega)]

theorem exit_fst (cb : CircuitBreaker) (o : Option ExcType) (t : ℚ) :
    (cb.exit o t).1 = false := by
  cases o <;> rfl

theorem exit_none_eq (cb : CircuitBreaker) (t : ℚ) : cb.exit none t = (false, cb) := rfl

theorem foldl_skip (ty : ExcType) (t : ℚ) :
    ∀ (l : List ExcType) (acc : CircuitBreaker), (∀ k ∈ l, issubclass ty k = false) →
      List.foldl (fun acc kind =>
        if issubclass ty kind then (acc.record_failure t).2 else acc) acc l = acc
  | [], _, _ => rfl
  | k :: ks, acc, h => by
      rw [List.foldl_cons, if_neg (by simp [h k (List.mem_cons_self k ks)])]
      exact foldl_skip ty t ks acc (fun k' hk' => h k' (List.mem_cons_of_mem _ hk'))

theorem exit_no_match {cb : CircuitBreaker} {ty : ExcType} (t : ℚ)
    (h : ∀ k ∈ cb.exception_kinds, issubclass ty k = false) :
    cb.exit (some ty) t = (false, cb) := by
  unfold CircuitBreaker.exit
  dsimp only
  rw [foldl_skip ty t cb.exception_kinds cb h]

theorem exit_single_match {cb : CircuitBreaker} {ty k : ExcType} (t : ℚ)
    (hk : cb.exception_kinds = [k]) (h : issubclass ty k = true) :
    cb.exit (some ty) t = (false, (cb.record_failure t).2) := by
  unfold CircuitBreaker.exit
  dsimp only
  rw [hk, List.foldl_cons, if_pos h, List.foldl_nil]

theorem withDo_of_enter_error {α : Type} {cb : CircuitBreaker} {t : ℚ} {e : PyExc}
    (t' : ℚ) (body : Except PyExc α) (h : (cb.enter t).1 = .error e) :
    cb.withDo t t' body = (.error e, (cb.enter t).2, false) := by
  unfold CircuitBreaker.withDo
  rcases hE : cb.enter t with ⟨r, cb'⟩
  rw [hE] at h
  simp only at h
  subst h
  rfl

theorem withDo_of_enter_ok_err {α : Type} {cb : CircuitBreaker} {t : ℚ} (t' : ℚ)
    (e : PyExc) (h : (cb.enter t).1 = .ok ()) :
    cb.withDo t t' (Except.error e : Except PyExc α) =
      (.error e, ((cb.enter t).2.exit (some e.ty) t').2, true) := by
  unfold CircuitBreaker.withDo
  rcases hE : cb.enter t with ⟨r, cb'⟩
  rw [hE] at h
  simp only at h
  subst h
  simp [exit_fst]

theorem withDo_of_enter_ok_ok {α : Type} {cb : CircuitBreaker} {t : ℚ} (t' : ℚ)
    (a : α) (h : (cb.enter t).1 = .ok ()) :
    cb.withDo t t' (Except.ok a : Except PyExc α) = (.ok (some a), (cb.enter t).2, true) := by
  unfold CircuitBreaker.withDo
  rcases hE : cb.enter t with ⟨r, cb'⟩
  rw [hE] at h
  simp only at h
  subst h
  simp [exit_none_eq]

theorem update_id_zero (cm c : ℤ) (r lr : ℚ) (cl : ClockImpl)
    (hcm : 0 ≤ cm) (h : c ≤ cm) :
    TokenBucket.update ⟨cm, c, r, lr, cl⟩ lr = ⟨cm, c, r, lr, cl⟩ := by
  rw [update_def]
  norm_num [pyTrunc]
  omega

theorem failOnce_step (c : ℤ) (h1 : 1 ≤ c) (h2 : c ≤ 5) :
    failOnce ⟨(), [.exception], ⟨5, c, 5, 0, .monotonic⟩⟩ =
      ⟨(), [.exception], ⟨5, c - 1, 5, 0, .monotonic⟩⟩ := by
  have hu : TokenBucket.update ⟨5, c, 5, 0, .monotonic⟩ 0 = ⟨5, c, 5, 0, .monotonic⟩ :=
    update_id_zero 5 c 5 0 .monotonic (by norm_num) h2
  have hcap : 1 ≤ ((CircuitBreaker.mk () [.exception] ⟨5, c, 5, 0, .monotonic⟩).bucket.update 0).capacity_current := by
    show 1 ≤ (TokenBucket.update ⟨5, c, 5, 0, .monotonic⟩ 0).capacity_current
    rw [hu]
    exact h1
  unfold failOnce
  rw [withDo_of_enter_ok_err 0 ⟨.valueError, "boom"⟩ (by rw [enter_allowed hcap])]
  show (((CircuitBreaker.mk () [.exception] ⟨5, c, 5, 0, .monotonic⟩).enter 0).2.exit
      (some ExcType.valueError) 0).2 = _
  rw [enter_state]
  show ((CircuitBreaker.mk () [.exception] (TokenBucket.update ⟨5, c, 5, 0, .monotonic⟩ 0)).exit
      (some ExcType.valueError) 0).2 = _
  rw [hu, exit_single_match 0 rfl (by rfl)]
  have hcap2 : 1 ≤ ((CircuitBreaker.mk () [.exception] ⟨5, c, 5, 0, .monotonic⟩).bucket.update 0).capacity_current := hcap
  rw [record_failure_state_ok hcap2]
  show CircuitBreaker.mk () [.exception]
      { TokenBucket.update ⟨5, c, 5, 0, .monotonic⟩ 0 with
        capacity_current := (TokenBucket.update ⟨5, c, 5, 0, .monotonic⟩ 0).capacity_current - 1 } = _
  rw [hu]

theorem scenarioC_cb5_eq : scenarioC_cb5 = ⟨(), [.exception], ⟨5, 0, 5, 0, .monotonic⟩⟩ := by
  unfold scenarioC_cb5 scenarioC_cb0
  rw [failOnce_step 5 (by norm_num) (by norm_num)]
  norm_num
  rw [failOnce_step 4 (by norm_num) (by norm_num)]
  norm_num
  rw [failOnce_step 3 (by norm_num) (by norm_num)]
  norm_num
  rw [failOnce_step 2 (by norm_num) (by norm_num)]
  norm_num
  rw [failOnce_step 1 (by norm_num) (by norm_num)]
  norm_num

theorem scenarioC_cb6_eq : scenarioC_cb6 = ⟨(), [.exception], ⟨5, 0, 5, 0, .monotonic⟩⟩ := by
  unfold scenarioC_cb6
  rw [scenarioC_cb5_eq]
  have hu : TokenBucket.update ⟨5, 0, 5, 0, .monotonic⟩ 0 = ⟨5, 0, 5, 0, .monotonic⟩ :=
    update_id_zero 5 0 5 0 .monotonic (by norm_num) (by norm_num)
  have hb : ((CircuitBreaker.mk () [.exception] ⟨5, 0, 5, 0, .monotonic⟩).bucket.update 0).capacity_current < 1 := by
    show (TokenBucket.update ⟨5, 0, 5, 0, .monotonic⟩ 0).capacity_current < 1
    rw [hu]
    norm_num
  rw [withDo_of_enter_error 0 (Except.ok () : Except PyExc Unit) (by rw [enter_blocked hb])]
  show ((CircuitBreaker.mk () [.exception] ⟨5, 0, 5, 0, .monotonic⟩).enter 0).2 = _
  rw [enter_state]
  show CircuitBreaker.mk () [.exception] (TokenBucket.update ⟨5, 0, 5, 0, .monotonic⟩ 0) = _
  rw [hu]

/-- C1 (audit of the release step): with the overlapping configuration
`exceptions_kinds=(Exception, ValueError)` (threshold 5, window 1s), a
single `ValueError` raised in the guarded scope makes `__exit__` call
`record_failure` — hence `bucket.take(1)` — once per matching kind: the
capacity drops from 5 to 3, two tokens for one classified failure.  With
the default single-kind configuration it drops 5 → 4 as the spec says. -/
theorem exit_double_counts_overlapping_kinds :
    CircuitBreaker.new () 5 1 [.exception, .valueError] 0 = .ok c1_breaker ∧
    (c1_breaker.exit (some .valueError) 0).2.bucket.capacity_current = 3 ∧
    ((CircuitBreaker.mk () [.exception] ⟨5, 5, 5, 0, .monotonic⟩).exit
        (some .valueError) 0).2.bucket.capacity_current = 4 := by
  refine ⟨?_, ?_, ?_⟩
  · norm_num [CircuitBreaker.new, TokenBucket.new, PyFloat.lt, PyFloat.isnan,
      PyFloat.isinf, c1_breaker]
  · norm_num [CircuitBreaker.exit, List.foldl, issubclass, c1_breaker,
      CircuitBreaker.record_failure, TokenBucket.take, update_def, pyTrunc]
  · norm_num [CircuitBreaker.exit, List.foldl, issubclass,
      CircuitBreaker.record_failure, TokenBucket.take, update_def, pyTrunc]

/-- C2 (audit of clock injection): whatever arguments `CircuitBreaker`'s
constructor is given, the internally constructed bucket's clock is the
`MonotonicClock` default — the constructor has no clock parameter, so the
caller cannot replace the core's time source at construction. -/
theorem breaker_clock_always_monotonic (hcl : HttpClient) (et tw : ℤ)
    (kinds : List ExcType) (now : ℚ) (cb : CircuitBreaker)
    (h : CircuitBreaker.new hcl et tw kinds now = .ok cb) :
    cb.bucket.clock = ClockImpl.monotonic := by
  unfold CircuitBreaker.new at h
  by_cases h0 : tw = 0
  · rw [if_pos h0] at h
    exact absurd h (by simp)
  · rw [if_neg h0] at h
    dsimp only at h
    cases hB : TokenBucket.new et (.finite ((et : ℚ) / (tw : ℚ))) .monotonic now with
    | ok b =>
        rw [hB] at h
        simp only [Except.ok.injEq] at h
        rw [← h]
        exact (new_ok_fields hB).2.2.2.1
    | error e =>
        rw [hB] at h
        exact absurd h (by simp)

theorem breaker_clock_always_monotonic_witness :
    scenarioC_cb0.bucket.clock = ClockImpl.monotonic :=
  breaker_clock_always_monotonic () 5 1 [.exception] 0 scenarioC_cb0 (by
    norm_num [CircuitBreaker.new, TokenBucket.new, PyFloat.lt, PyFloat.isnan,
      PyFloat.isinf, scenarioC_cb0])

/-- C9: `record_failure` never raises — when the bucket is empty the
`ValueError` ("CapacityExceeded") from `bucket.take()` is swallowed — and
its state is exactly the state `bucket.take(1)` leaves behind. -/
theorem record_failure_swallows_capacity_exceeded (cb : CircuitBreaker) (now : ℚ) :
    (cb.record_failure now).1 = .ok () ∧
    (cb.record_failure now).2 = { cb with bucket := (cb.bucket.take 1 now).2 } := by
  refine ⟨record_failure_never_raises cb now, ?_⟩
  by_cases h : (cb.bucket.update now).capacity_current < 1
  · rw [record_failure_state_empty h, take_state_of_lt now le_rfl h]
  · rw [record_failure_state_ok (by omega), take_state_of_ge now le_rfl (by omega)]

/-- C8: when the guard was entered, a failing body's exception is
re-propagated unchanged (`__exit__` returns `False`); if its kind matches
none of the configured kinds, the final breaker state is exactly the
post-acquire state — no token is consumed and the bucket is not moved
toward blocking. -/
theorem failure_propagated_unchanged (cb : CircuitBreaker) (t t' : ℚ) (e : PyExc)
    (h : (cb.enter t).1 = Except.ok ()) :
    (cb.withDo t t' (Except.error e : Except PyExc Unit)).1 = .error e ∧
    ((∀ k ∈ cb.exception_kinds, issubclass e.ty k = false) →
      (cb.withDo t t' (Except.error e : Except PyExc Unit)).2.1 =
        { cb with bucket := cb.bucket.update t }) := by
  rw [withDo_of_enter_ok_err t' e h]
  refine ⟨rfl, fun hn => ?_⟩
  rw [enter_state]
  have hX := @exit_no_match { cb with bucket := cb.bucket.update t } e.ty t'
    (fun k hk => hn k hk)
  rw [hX]

theorem failure_propagated_unchanged_witness :
    ((CircuitBreaker.mk () [.valueError] ⟨5, 5, 5, 0, .monotonic⟩).withDo 0 0
        (Except.error ⟨.keyError, "missing"⟩ : Except PyExc Unit)).1 =
      .error ⟨.keyError, "missing"⟩ ∧
    ((CircuitBreaker.mk () [.valueError] ⟨5, 5, 5, 0, .monotonic⟩).withDo 0 0
        (Except.error ⟨.keyError, "missing"⟩ : Except PyExc Unit)).2.1 =
      CircuitBreaker.mk () [.valueError] ⟨5, 5, 5, 0, .monotonic⟩ := by
  have hu : TokenBucket.update ⟨5, 5, 5, 0, .monotonic⟩ 0 = ⟨5, 5, 5, 0, .monotonic⟩ :=
    update_id_zero 5 5 5 0 .monotonic (by norm_num) (by norm_num)
  have hcap : 1 ≤ ((CircuitBreaker.mk () [.valueError] ⟨5, 5, 5, 0, .monotonic⟩).bucket.update 0).capacity_current := by
    show 1 ≤ (TokenBucket.update ⟨5, 5, 5, 0, .monotonic⟩ 0).capacity_current
    rw [hu]
    norm_num
  have h := failure_propagated_unchanged
    (CircuitBreaker.mk () [.valueError] ⟨5, 5, 5, 0, .monotonic⟩) 0 0
    ⟨.keyError, "missing"⟩ (by rw [enter_allowed hcap])
  refine ⟨h.1, ?_⟩
  rw [h.2 (by intro k hk; simp only [List.mem_singleton] at hk; subst hk; rfl)]
  show CircuitBreaker.mk () [.valueError] (TokenBucket.update ⟨5, 5, 5, 0, .monotonic⟩ 0) = _
  rw [hu]

/-- C7: acquiring the guard fails with `RequestBlockedError` — without the
body ever running — exactly when the lazily restored bucket has no token
left, and succeeds silently when a token remains; in Scenario C
(threshold 5, window 1s), after five classified failures the sixth acquire
is refused at the same instant, and one second later the guarded body runs
again. -/
theorem acquire_gate :
    (∀ (cb : CircuitBreaker) (t t' : ℚ) (body : Except PyExc Unit),
      ((cb.bucket.update t).capacity_current < 1 →
        cb.withDo t t' body =
          (.error ⟨.requestBlockedError, "Not performing request. Too many failures"⟩,
           { cb with bucket := cb.bucket.update t }, false)) ∧
      (1 ≤ (cb.bucket.update t).capacity_current →
        (cb.enter t).1 = .ok () ∧ (cb.withDo t t' body).2.2 = true)) ∧
    CircuitBreaker.new () 5 1 [.exception] 0 = .ok scenarioC_cb0 ∧
    scenarioC_cb5.bucket.capacity_current = 0 ∧
    (scenarioC_cb5.withDo 0 0 (Except.ok () : Except PyExc Unit)).1 =
      .error ⟨.requestBlockedError, "Not performing request. Too many failures"⟩ ∧
    (scenarioC_cb5.withDo 0 0 (Except.ok () : Except PyExc Unit)).2.2 = false ∧
    (scenarioC_cb6.withDo 1 1 (Except.ok () : Except PyExc Unit)).1 = .ok (some ()) ∧
    (scenarioC_cb6.withDo 1 1 (Except.ok () : Except PyExc Unit)).2.2 = true := by
  have hgen : ∀ (cb : CircuitBreaker) (t t' : ℚ) (body : Except PyExc Unit),
      ((cb.bucket.update t).capacity_current < 1 →
        cb.withDo t t' body =
          (.error ⟨.requestBlockedError, "Not performing request. Too many failures"⟩,
           { cb with bucket := cb.bucket.update t }, false)) ∧
      (1 ≤ (cb.bucket.update t).capacity_current →
        (cb.enter t).1 = .ok () ∧ (cb.withDo t t' body).2.2 = true) := by
    intro cb t t' body
    constructor
    · intro h
      have he := enter_blocked h
      rw [withDo_of_enter_error t' body (by rw [he]), he]
    · intro h
      have he := enter_allowed h
      refine ⟨by rw [he], ?_⟩
      cases body with
      | ok a => rw [withDo_of_enter_ok_ok t' a (by rw [he])]
      | error e => rw [withDo_of_enter_ok_err t' e (by rw [he])]
  refine ⟨hgen, ?_, ?_, ?_, ?_, ?_, ?_⟩
  · norm_num [CircuitBreaker.new, TokenBucket.new, PyFloat.lt, PyFloat.isnan,
      PyFloat.isinf, scenarioC_cb0]
  · rw [scenarioC_cb5_eq]
  · have h := (hgen scenarioC_cb5 0 0 (Except.ok ())).1 (by
      rw [scenarioC_cb5_eq]
      show (TokenBucket.update ⟨5, 0, 5, 0, .monotonic⟩ 0).capacity_current < 1
      rw [update_id_zero 5 0 5 0 .monotonic (by norm_num) (by norm_num)]
      norm_num)
    rw [h]
  · have h := (hgen scenarioC_cb5 0 0 (Except.ok ())).1 (by
      rw [scenarioC_cb5_eq]
      show (TokenBucket.update ⟨5, 0, 5, 0, .monotonic⟩ 0).capacity_current < 1
      rw [update_id_zero 5 0 5 0 .monotonic (by norm_num) (by norm_num)]
      norm_num)
    rw [h]
  · have hcap : 1 ≤ (scenarioC_cb6.bucket.update 1).capacity_current := by
      rw [scenarioC_cb6_eq]
      show 1 ≤ (TokenBucket.update ⟨5, 0, 5, 0, .monotonic⟩ 1).capacity_current
      norm_num [update_def, pyTrunc]
    rw [withDo_of_enter_ok_ok 1 () (by rw [enter_allowed hcap])]
  · have hcap : 1 ≤ (scenarioC_cb6.bucket.update 1).capacity_current := by
      rw [scenarioC_cb6_eq]
      show 1 ≤ (TokenBucket.update ⟨5, 0, 5, 0, .monotonic⟩ 1).capacity_current
      norm_num [update_def, pyTrunc]
    rw [withDo_of_enter_ok_ok 1 () (by rw [enter_allowed hcap])]

theorem acquire_gate_witness :
    c10_breaker.withDo 0 0 (Except.ok () : Except PyExc Unit) =
      (.error ⟨.requestBlockedError, "Not performing request. Too many failures"⟩,
       { c10_breaker with bucket := c10_breaker.bucket.update 0 }, false) ∧
    (scenarioC_cb0.enter 0).1 = .ok () := by
  constructor
  · refine (acquire_gate.1 c10_breaker 0 0 (Except.ok ())).1 ?_
    show (TokenBucket.update ⟨5, 0, 5, 0, .monotonic⟩ 0).capacity_current < 1
    rw [update_id_zero 5 0 5 0 .monotonic (by norm_num) (by norm_num)]
    norm_num
  · refine ((acquire_gate.1 scenarioC_cb0 0 0 (Except.ok ())).2 ?_).1
    show 1 ≤ (TokenBucket.update ⟨5, 5, 5, 0, .monotonic⟩ 0).capacity_current
    rw [update_id_zero 5 5 5 0 .monotonic (by norm_num) (by norm_num)]
    norm_num

/-- C10 (counterexample to "repeated blocked acquires never push
re-admission further into the future"): with an empty threshold-5/window-1s
bucket drained at time 0, an acquire at t=0.2 is admitted; but after a
blocked acquire at t=0.1 (which restores no whole token yet advances
`last_restore`), the acquire at t=0.2 is still refused. -/
theorem blocked_poll_delays_readmission :
    (c10_breaker.enter (1/5)).1 = Except.ok () ∧
    (c10_breaker.enter (1/10)).1 =
      Except.error ⟨.requestBlockedError, "Not performing request. Too many failures"⟩ ∧
    ((c10_breaker.enter (1/10)).2.enter (1/5)).1 =
      Except.error ⟨.requestBlockedError, "Not performing request. Too many failures"⟩ := by
  have h1 : 1 ≤ (c10_breaker.bucket.update (1/5)).capacity_current := by
    show 1 ≤ (TokenBucket.update ⟨5, 0, 5, 0, .monotonic⟩ (1/5)).capacity_current
    norm_num [update_def, pyTrunc]
  have h2 : (c10_breaker.bucket.update (1/10)).capacity_current < 1 := by
    show (TokenBucket.update ⟨5, 0, 5, 0, .monotonic⟩ (1/10)).capacity_current < 1
    norm_num [update_def, pyTrunc]
  refine ⟨by rw [enter_allowed h1], by rw [enter_blocked h2], ?_⟩
  rw [enter_state]
  have h3 : (({ c10_breaker with bucket := c10_breaker.bucket.update (1/10) } : CircuitBreaker).bucket.update (1/5)).capacity_current < 1 := by
    show ((TokenBucket.update ⟨5, 0, 5, 0, .monotonic⟩ (1/10)).update (1/5)).capacity_current < 1
    norm_num [update_def, pyTrunc]
  rw [enter_blocked h3]

/-- C10 (amended): a refused acquire raises the blocked error with the
body never invoked, consumes no token and records no failure — even though
`RequestBlockedError` is a subclass of the default `Exception`
classification, `__exit__` is skipped — so the bucket changes only by the
lazy restore of the capacity check. -/
theorem blocked_acquire_frame (cb : CircuitBreaker) (t t' : ℚ)
    (body : Except PyExc Unit) (e : PyExc)
    (h : (cb.enter t).1 = .error e) :
    cb.withDo t t' body = (.error e, { cb with bucket := cb.bucket.update t }, false) := by
  rw [withDo_of_enter_error t' body h, enter_state]

theorem blocked_acquire_frame_witness :
    issubclass ExcType.requestBlockedError ExcType.exception = true ∧
    c10_breaker.withDo (1/10) (1/10) (Except.ok () : Except PyExc Unit) =
      (.error ⟨.requestBlockedError, "Not performing request. Too many failures"⟩,
       { c10_breaker with bucket := c10_breaker.bucket.update (1/10) }, false) := by
  have h2 : (c10_breaker.bucket.update (1/10)).capacity_current < 1 := by
    show (TokenBucket.update ⟨5, 0, 5, 0, .monotonic⟩ (1/10)).capacity_current < 1
    norm_num [update_def, pyTrunc]
  exact ⟨rfl, blocked_acquire_frame c10_breaker (1/10) (1/10) (Except.ok ())
    ⟨.requestBlockedError, "Not performing request. Too many failures"⟩
    (by rw [enter_blocked h2])⟩

end Breaking
